import Mathlib

/-!
Verification development for the CitySpark educational-platform backend.

The definitions below are a shallow embedding of the Python source:

* `src/core/ai_learning/engine.py` (`CitySparkLearningEngine`)
* `src/assets/urban_art/generator.py` (`UrbanArtGenerator`)
* `src/core/analytics/engine.py` (`AnalyticsEngine`)
* `src/integration/omniscient_hub/connector.py` (`OmniscientHubConnector`)

Python floats are modelled by `ℚ` (the numeric computations in scope are
ratios, products and comparisons of small decimal literals); Python dicts
used as id-keyed stores are modelled by insertion-ordered association
lists; `datetime` values are modelled by an abstract linearly ordered
time (`ℚ`) together with the hour-of-day component the code reads;
Python's stable `list.sort(key=…, reverse=True)` (resp. ascending) is
modelled by the stable insertion sorts `pySortDesc` / `pySortAsc`;
fallible lookups that raise `ValueError` are modelled with `Option`.
-/

namespace CitySpark

/-! ### Python list.sort model

Python `list.sort` is stable.  With `reverse=True` the result is ordered
by descending key and elements with equal keys keep their original
relative order; `pyInsertDesc` therefore inserts an element in front of
the first already-placed element whose key is ≤ its own (already-placed
elements come later in the original list, because `pySortDesc` folds
from the right). -/

/-- Stable descending insertion: place `x` before the first element whose
key is not larger than `key x`. -/
def pyInsertDesc {α : Type} (key : α → ℚ) (x : α) : List α → List α
  | [] => [x]
  | y :: ys => if key y ≤ key x then x :: y :: ys else y :: pyInsertDesc key x ys

/-- Model of Python `list.sort(key=key, reverse=True)`: stable, descending. -/
def pySortDesc {α : Type} (key : α → ℚ) (l : List α) : List α :=
  l.foldr (pyInsertDesc key) []

/-- Stable ascending insertion: place `x` before the first element whose
key is not smaller than `key x`. -/
def pyInsertAsc {α : Type} (key : α → ℚ) (x : α) : List α → List α
  | [] => [x]
  | y :: ys => if key x ≤ key y then x :: y :: ys else y :: pyInsertAsc key x ys

/-- Model of Python `list.sort(key=key)`: stable, ascending. -/
def pySortAsc {α : Type} (key : α → ℚ) (l : List α) : List α :=
  l.foldr (pyInsertAsc key) []

/-- Model of a Python dict used as an id-keyed store: lookup of the first
(and, for a dict, only) binding of a key. -/
def dictGet {β : Type} (k : String) : List (String × β) → Option β
  | [] => none
  | p :: ps => if p.1 = k then some p.2 else dictGet k ps

/-- Model of an in-place mutation of the object stored under key `k` of a
Python dict: every binding of `k` is rewritten by `f`, all other bindings
are untouched and the binding order is preserved. -/
def dictUpdate {β : Type} (k : String) (f : β → β) (g : List (String × β)) :
    List (String × β) :=
  g.map fun p => if p.1 = k then (p.1, f p.2) else p

/-! ### AI learning engine (`src/core/ai_learning/engine.py`)

`create_student_profile` stores many fields; the operations embedded
here (`get_recommendations` via `_recommend_content`, and
`analyze_performance`) read only `interests` and `weaknesses`, so the
profile model keeps exactly those.  `analyze_performance` also appends
the analysis to the profile's `progress_history` and refreshes
`updated_at`; no claim concerns that history, so the embedding returns
the analysis record and models the `student_id not in
self.student_profiles` check (a raised `ValueError`) by `Option`. -/

/-- Fields of a stored student profile read by the embedded operations. -/
structure StudentProfile where
  interests : List String
  weaknesses : List String
deriving DecidableEq

/-- One recommendation record produced by the engine.  A missing
`difficulty` key is `none`. -/
structure Recommendation where
  rtype : String
  title : String
  description : String
  relevance_score : ℚ
  difficulty : Option String
deriving DecidableEq

/-- Multiplier table of `_calculate_mastery_level`, with the
`dict.get(difficulty, 1.0)` default. -/
def difficultyMultipliers (difficulty : String) : ℚ :=
  if difficulty = "beginner" then 1.0
  else if difficulty = "medium" then 1.2
  else if difficulty = "advanced" then 1.5
  else if difficulty = "expert" then 2.0
  else 1.0

/-- `_calculate_mastery_level(score, difficulty)`. -/
def calculateMasteryLevel (score : ℚ) (difficulty : String) : ℚ :=
  min (score * difficultyMultipliers difficulty / 100) 1.0

/-- `_suggest_next_difficulty(mastery_level)`. -/
def suggestNextDifficulty (mastery_level : ℚ) : String :=
  if mastery_level < 0.3 then "beginner"
  else if mastery_level < 0.6 then "medium"
  else if mastery_level < 0.8 then "advanced"
  else "expert"

/-- `_generate_recommendations(profile, performance)`; it reads only the
score. -/
def generateRecommendationTexts (score : ℚ) : List String :=
  if score < 60 then
    ["Review fundamental concepts", "Schedule additional practice sessions"]
  else if score < 80 then
    ["Focus on challenging topics", "Try different learning approaches"]
  else
    ["Advance to next difficulty level", "Help peers with similar topics"]

/-- Performance payload of `analyze_performance`, after the `dict.get`
defaults (`score` 0, `time_spent` 0, `difficulty` "medium",
`completion_rate` 1.0) have been applied. -/
structure PerformanceData where
  score : ℚ
  time_spent : ℚ
  difficulty : String
  completion_rate : ℚ
deriving DecidableEq

/-- Analysis record returned by `analyze_performance` (the `analyzed_at`
timestamp is not modelled; no claim reads it). -/
structure PerformanceAnalysis where
  student_id : String
  performance_score : ℚ
  efficiency : ℚ
  mastery_level : ℚ
  completion_rate : ℚ
  recommendations : List String
  next_difficulty : String
deriving DecidableEq

/-- `analyze_performance(student_id, performance_data)` : `none` models
the `ValueError` raised when the student id is not a stored profile key.
`efficiency = score / max(time_spent, 1) if time_spent > 0 else 0`. -/
def analyzePerformance (profiles : List String) (student_id : String)
    (pd : PerformanceData) : Option PerformanceAnalysis :=
  if student_id ∈ profiles then
    some
      { student_id := student_id
        performance_score := pd.score
        efficiency := if pd.time_spent > 0 then pd.score / max pd.time_spent 1 else 0
        mastery_level := calculateMasteryLevel pd.score pd.difficulty
        completion_rate := pd.completion_rate
        recommendations := generateRecommendationTexts pd.score
        next_difficulty := suggestNextDifficulty (calculateMasteryLevel pd.score pd.difficulty) }
  else none

/-- `_recommend_content(profile, context)`: one item per interest
(relevance 0.9) followed by one per weakness (relevance 0.85). -/
def recommendContent (profile : StudentProfile) : List Recommendation :=
  (profile.interests.map fun interest =>
    { rtype := "content"
      title := "Advanced " ++ interest
      description := "Deep dive into " ++ interest ++ " based on your interests"
      relevance_score := 0.9
      difficulty := some "medium" })
  ++
  (profile.weaknesses.map fun weakness =>
    { rtype := "content"
      title := "Master " ++ weakness
      description := "Strengthen your " ++ weakness ++ " skills"
      relevance_score := 0.85
      difficulty := some "beginner" })

/-- `_recommend_activities(profile, context)`: two fixed entries. -/
def recommendActivities : List Recommendation :=
  [{ rtype := "activity"
     title := "Collaborative Project"
     description := "Work with peers on a real-world project"
     relevance_score := 0.8
     difficulty := none },
   { rtype := "activity"
     title := "Quiz Challenge"
     description := "Test your knowledge with interactive quizzes"
     relevance_score := 0.75
     difficulty := none }]

/-- `_recommend_peer_learning(profile)`: one fixed entry. -/
def recommendPeerLearning : List Recommendation :=
  [{ rtype := "peer"
     title := "Study Group"
     description := "Join a study group with similar goals"
     relevance_score := 0.7
     difficulty := none }]

/-- Body of `get_recommendations` once the profile has been found:
merge the three sub-lists, stable-sort by `relevance_score` descending
(`x.get("relevance_score", 0)`: every produced record has the key),
return the first 10. -/
def recommendForProfile (profile : StudentProfile) : List Recommendation :=
  (pySortDesc (fun r => r.relevance_score)
    (recommendContent profile ++ recommendActivities ++ recommendPeerLearning)).take 10

/-- `get_recommendations(student_id, context)`: `none` models the
`ValueError` raised for an unknown student id. -/
def getRecommendations (profiles : List (String × StudentProfile))
    (student_id : String) : Option (List Recommendation) :=
  (dictGet student_id profiles).map recommendForProfile

/-! ### Urban art gallery (`src/assets/urban_art/generator.py`)

`self.art_gallery` is a dict from generation id to art-piece dict; it is
modelled by an association list in insertion order.  The mutating
operations (`like_art`, `view_art`, `feature_art`, `get_popular_art`)
update the stored dicts in place; the embedding returns the new store
next to the value the Python method returns.  Keys absent from a piece
dict until some operation writes them (`updated_at`, written by
`update_art_piece` / `like_art` / `feature_art`; `popularity_score`,
written by `get_popular_art`) are modelled with `Option`, `none`
standing for a missing key. -/

/-- Metadata dict produced by `_generate_metadata`; never mutated. -/
structure ArtMetadata where
  prompt_length : Nat
  style : String
  generation_model : String
  resolution : String
  format : String
  keywords : List String
deriving DecidableEq

/-- One art-piece record as stored in `self.art_gallery`.  `created_at`
and `updated_at` use the abstract `ℚ` timeline; `user_id` is `None`-able
in the source. -/
structure ArtPiece where
  id : String
  prompt : String
  style : String
  user_id : Option String
  title : String
  description : String
  metadata : ArtMetadata
  image_url : String
  thumbnail_url : String
  tags : List String
  created_at : ℚ
  likes : Nat
  views : Nat
  featured : Bool
  updated_at : Option ℚ
  popularity_score : Option ℚ
deriving DecidableEq

/-- Popularity value computed inside `get_popular_art`:
`art["likes"] * 2 + art["views"] * 0.1`. -/
def popScore (a : ArtPiece) : ℚ :=
  (a.likes : ℚ) * 2 + (a.views : ℚ) * 0.1

/-- In-place write of the popularity score performed by the loop
`for art in gallery: art["popularity_score"] = …` (the list aliases the
dicts held by `self.art_gallery`). -/
def withPopScore (a : ArtPiece) : ArtPiece :=
  { a with popularity_score := some (popScore a) }

/-- `view_art(art_id, user_id)`: `none` models the raised `ValueError`;
otherwise the stored piece's `views` counter is incremented in place
(nothing else, in particular not `updated_at`) and the mutated piece is
returned next to the new store. -/
def viewArt (gallery : List (String × ArtPiece)) (art_id : String) :
    Option (List (String × ArtPiece) × ArtPiece) :=
  (dictGet art_id gallery).map fun a =>
    (dictUpdate art_id (fun b => { b with views := b.views + 1 }) gallery,
     { a with views := a.views + 1 })

/-- `like_art(art_id, user_id)`: increments `likes` and refreshes
`updated_at` to the current time `now`. -/
def likeArt (gallery : List (String × ArtPiece)) (art_id : String) (now : ℚ) :
    Option (List (String × ArtPiece) × ArtPiece) :=
  (dictGet art_id gallery).map fun a =>
    (dictUpdate art_id
        (fun b => { b with likes := b.likes + 1, updated_at := some now }) gallery,
     { a with likes := a.likes + 1, updated_at := some now })

/-- `get_popular_art(limit)`: takes `list(self.art_gallery.values())`
(aliases of the stored dicts), writes `popularity_score` into every one
of them, sorts the list by that just-written score descending (Python
`sort` is stable) and returns the first `limit` pieces.  The first
component is the store after the in-place writes, the second the
returned list. -/
def getPopularArt (gallery : List (String × ArtPiece)) (limit : Nat) :
    List (String × ArtPiece) × List ArtPiece :=
  (gallery.map fun p => (p.1, withPopScore p.2),
   (pySortDesc popScore ((gallery.map fun p => withPopScore p.2))).take limit)

/-! ### Analytics engine (`src/core/analytics/engine.py`)

Events carry an ISO-8601 timestamp string; chronological order of those
strings coincides with lexicographic order, and the engine reads two
projections of a timestamp: its position on the timeline (window filter
of `calculate_user_metrics`, sort key of `_is_improving`) and its
hour-of-day (`_is_night_learner`).  The embedding models a timestamp by
`time : ℚ` together with its `hour`.  The opaque `data` payload is read
only through `data.get("score", 0)` and
`data.get("duration_minutes", 0)`; the model stores those two values
with the defaults applied. -/

/-- One tracked analytics event (after the payload `get` defaults). -/
structure AnalyticsEvent where
  etype : String
  user_id : String
  time : ℚ
  hour : Nat
  score : ℚ
  duration_minutes : ℚ
deriving DecidableEq

/-- Metrics record returned by `calculate_user_metrics`. -/
structure UserMetrics where
  user_id : String
  period_days : ℚ
  total_events : Nat
  learning_time_minutes : ℚ
  completion_rate : ℚ
  average_score : ℚ
  engagement_score : Nat
deriving DecidableEq

/-- `_calculate_learning_time(events)`. -/
def calcLearningTime (events : List AnalyticsEvent) : ℚ :=
  ((events.filter fun e =>
      e.etype = "learning_session" ∨ e.etype = "video_watch" ∨
        e.etype = "quiz_attempt").map fun e => e.duration_minutes).sum

/-- `_calculate_completion_rate(events)`:
`(len(completed)/len(started)) * 100 if started_events else 0`. -/
def calcCompletionRate (events : List AnalyticsEvent) : ℚ :=
  if (events.filter fun e => e.etype = "module_started") = [] then 0
  else
    (((events.filter fun e => e.etype = "module_completed").length : ℚ) /
      ((events.filter fun e => e.etype = "module_started").length : ℚ)) * 100

/-- `_calculate_average_score(events)`. -/
def calcAverageScore (events : List AnalyticsEvent) : ℚ :=
  if (events.filter fun e => e.etype = "quiz_completed") = [] then 0
  else
    ((events.filter fun e => e.etype = "quiz_completed").map fun e => e.score).sum /
      ((events.filter fun e => e.etype = "quiz_completed").length : ℚ)

/-- `_calculate_engagement_score(events)`: `min(len(relevant) * 5, 100)`. -/
def calcEngagementScore (events : List AnalyticsEvent) : Nat :=
  min
    ((events.filter fun e =>
        e.etype = "video_watch" ∨ e.etype = "quiz_attempt" ∨
          e.etype = "discussion_post" ∨ e.etype = "assignment_submit").length * 5)
    100

/-- `calculate_user_metrics(user_id, days)`: `now` is the value of
`datetime.now()` at call time, so the window cutoff is `now - days`
(time measured in days). -/
def calculateUserMetrics (events : List AnalyticsEvent) (user_id : String)
    (days : ℚ) (now : ℚ) : UserMetrics :=
  { user_id := user_id
    period_days := days
    total_events :=
      (events.filter fun e => e.user_id = user_id ∧ now - days ≤ e.time).length
    learning_time_minutes :=
      calcLearningTime (events.filter fun e => e.user_id = user_id ∧ now - days ≤ e.time)
    completion_rate :=
      calcCompletionRate (events.filter fun e => e.user_id = user_id ∧ now - days ≤ e.time)
    average_score :=
      calcAverageScore (events.filter fun e => e.user_id = user_id ∧ now - days ≤ e.time)
    engagement_score :=
      calcEngagementScore (events.filter fun e => e.user_id = user_id ∧ now - days ≤ e.time) }

/-- `_is_night_learner(events)`: strictly more than 60% of the
learning-session / video-watch events fall at hours 19–23. -/
def isNightLearner (events : List AnalyticsEvent) : Bool :=
  let learning_events := events.filter fun e =>
    e.etype = "learning_session" ∨ e.etype = "video_watch"
  if learning_events = [] then false
  else
    decide
      (((learning_events.filter fun e =>
          e.hour = 19 ∨ e.hour = 20 ∨ e.hour = 21 ∨ e.hour = 22 ∨ e.hour = 23).length : ℚ) /
        (learning_events.length : ℚ) > 0.6)

/-- `_is_improving(events)`: with fewer than 3 quiz completions it is
`False`; otherwise the quiz events are sorted by timestamp and the
average of the last 3 scores is compared strictly against the average
of the first 3 (`quiz_events[-3:]` is `drop (length - 3)` since the
guard ensures at least 3 elements). -/
def isImproving (events : List AnalyticsEvent) : Bool :=
  let quiz_events := events.filter fun e => e.etype = "quiz_completed"
  if quiz_events.length < 3 then false
  else
    let sorted := pySortAsc (fun e => e.time) quiz_events
    let recent_scores := (sorted.drop (sorted.length - 3)).map fun e => e.score
    let early_scores := (sorted.take 3).map fun e => e.score
    decide
      (recent_scores.sum / (recent_scores.length : ℚ) >
        early_scores.sum / (early_scores.length : ℚ))

/-- Concrete fixture: a `module_started` event of user "u" at time 0. -/
def sampleStarted1 : AnalyticsEvent :=
  { etype := "module_started", user_id := "u", time := 0, hour := 10,
    score := 0, duration_minutes := 0 }

/-- Concrete fixture: a second `module_started` event of user "u". -/
def sampleStarted2 : AnalyticsEvent :=
  { etype := "module_started", user_id := "u", time := 1, hour := 11,
    score := 0, duration_minutes := 0 }

/-- Concrete fixture: a `module_completed` event of user "u". -/
def sampleCompleted : AnalyticsEvent :=
  { etype := "module_completed", user_id := "u", time := 2, hour := 12,
    score := 0, duration_minutes := 0 }

/-- One insight record produced by `generate_insights`. -/
structure Insight where
  itype : String
  title : String
  description : String
  recommendation : String
deriving DecidableEq

/-- Fixed insight appended when `_is_night_learner` holds. -/
def nightLearnerInsight : Insight :=
  { itype := "learning_pattern"
    title := "Night Learner"
    description := "You learn most effectively during evening hours"
    recommendation := "Schedule important learning activities for 7-10 PM" }

/-- Fixed insight appended when `_is_improving` holds. -/
def improvingInsight : Insight :=
  { itype := "progress_trend"
    title := "Improving Performance"
    description := "Your scores have been trending upward"
    recommendation := "Keep up the current learning strategy" }

/-- `generate_insights(user_id)`: filters the log to the user's events
(no time window) and appends the two canned insights gated by their
detectors. -/
def generateInsights (events : List AnalyticsEvent) (user_id : String) :
    List Insight :=
  (if isNightLearner (events.filter fun e => e.user_id = user_id) then
    [nightLearnerInsight] else [])
  ++
  (if isImproving (events.filter fun e => e.user_id = user_id) then
    [improvingInsight] else [])

/-! ### Omniscient hub connector (`src/integration/omniscient_hub/connector.py`)

Each public operation posts a payload to the external hub and, on any
`requests.RequestException` (transport failure or timeout), returns a
locally computed fallback instead of raising.  The outcome of the
external call is a parameter of the embedding: `some response` models a
successful reply, `none` models a raised `requests.RequestException`. -/

/-- Model of Python `str.title()`: the first letter of every run of
alphabetic characters is upper-cased, the rest of the run lower-cased,
other characters are unchanged. -/
def pyTitleGo (prevAlpha : Bool) : List Char → List Char
  | [] => []
  | c :: cs =>
      if c.isAlpha then
        (if prevAlpha then c.toLower else c.toUpper) :: pyTitleGo true cs
      else c :: pyTitleGo false cs

/-- Python `str.title()`. -/
def pyTitle (s : String) : String :=
  String.mk (pyTitleGo false s.data)

/-- Profile dict fields read by `_generate_fallback_recommendations`,
after the `get` defaults (`interests` `[]`, `skill_level`
`"beginner"`). -/
structure HubProfile where
  interests : List String
  skill_level : String
deriving DecidableEq

/-- One fallback recommendation item built by
`_generate_fallback_recommendations`. -/
structure HubRecommendation where
  rtype : String
  title : String
  description : String
  difficulty : String
  estimated_duration : String
  confidence_score : ℚ
  source : String
deriving DecidableEq

/-- `_generate_fallback_recommendations(student_profile)`: one item per
interest, capped at the first 3 interests. -/
def generateFallbackRecommendations (student_profile : HubProfile) :
    List HubRecommendation :=
  (student_profile.interests.take 3).map fun interest =>
    { rtype := "content"
      title := "Advanced " ++ pyTitle interest ++ " Course"
      description := "Learn advanced " ++ interest ++ " concepts"
      difficulty := student_profile.skill_level
      estimated_duration := "4 weeks"
      confidence_score := 0.75
      source := "fallback" }

/-- `get_learning_recommendations(student_profile, context)`: the remote
reply when the post succeeds, the local fallback when it raises. -/
def getLearningRecommendations (remote : Option (List HubRecommendation))
    (student_profile : HubProfile) : List HubRecommendation :=
  match remote with
  | some response => response
  | none => generateFallbackRecommendations student_profile

/-- One learning-data session dict as read by the fallback analysis:
`get("duration", 0)`, `get("timestamp", "")` (`none` models a missing
or empty timestamp, otherwise its hour-of-day is what the code reads)
and `get("content_type", "unknown")`. -/
structure LearningSession where
  duration : ℚ
  timestamp_hour : Option Nat
  content_type : Option String
deriving DecidableEq

/-- Counter-dict bump: Python `counts[k] = counts.get(k, 0) + 1` on an
insertion-ordered dict. -/
def bumpCount {κ : Type} [DecidableEq κ] (k : κ) : List (κ × Nat) → List (κ × Nat)
  | [] => [(k, 1)]
  | p :: ps => if p.1 = k then (p.1, p.2 + 1) :: ps else p :: bumpCount k ps

/-- Python `max(pairs, key=lambda x: x[1])[0]`: the key of the first
pair carrying the maximal count (`max` keeps the earlier element on
ties). -/
def maxBySnd {κ : Type} : List (κ × Nat) → Option κ
  | [] => none
  | x :: xs => some (xs.foldl (fun best p => if p.2 > best.2 then p else best) x).1

/-- `_find_most_active_hour(learning_data)`. -/
def findMostActiveHour (learning_data : List LearningSession) : Nat :=
  if learning_data = [] then 14
  else
    (maxBySnd
      (learning_data.foldl
        (fun counts s =>
          match s.timestamp_hour with
          | none => counts
          | some h => bumpCount h counts)
        [])).getD 14

/-- `type_mapping.get(most_common_type, "visual")` of
`_infer_learning_style`. -/
def learningStyleOfType (t : String) : String :=
  if t = "video" then "visual"
  else if t = "text" then "reading"
  else if t = "interactive" then "kinesthetic"
  else if t = "audio" then "auditory"
  else "visual"

/-- `_infer_learning_style(learning_data)`. -/
def inferLearningStyle (learning_data : List LearningSession) : String :=
  if learning_data = [] then "visual"
  else
    learningStyleOfType
      ((maxBySnd
        (learning_data.foldl
          (fun counts s => bumpCount (s.content_type.getD "unknown") counts)
          [])).getD "video")

/-- Result dict of `analyze_learning_pattern`; `none` models a missing
key (the `insufficient_data` reply carries only `status`, a remote
reply is opaque and not modelled field by field — the claims only
concern the fallback shape). -/
structure AnalysisResult where
  status : Option String
  total_sessions : Option Nat
  average_session_length : Option ℚ
  most_active_hour : Option Nat
  learning_style : Option String
  confidence_level : Option ℚ
  source : Option String
deriving DecidableEq

/-- `_generate_fallback_analysis(learning_data)`: the empty log yields
the bare `insufficient_data` dict, otherwise a full analysis marked
`source: "fallback"` with confidence 0.6. -/
def generateFallbackAnalysis (learning_data : List LearningSession) :
    AnalysisResult :=
  if learning_data = [] then
    { status := some "insufficient_data"
      total_sessions := none
      average_session_length := none
      most_active_hour := none
      learning_style := none
      confidence_level := none
      source := none }
  else
    { status := none
      total_sessions := some learning_data.length
      average_session_length :=
        some ((learning_data.map fun s => s.duration).sum / (learning_data.length : ℚ))
      most_active_hour := some (findMostActiveHour learning_data)
      learning_style := some (inferLearningStyle learning_data)
      confidence_level := some 0.6
      source := some "fallback" }

/-- `analyze_learning_pattern(student_id, learning_data)`: the remote
reply when the post succeeds, the local fallback when it raises. -/
def analyzeLearningPattern (remote : Option AnalysisResult)
    (learning_data : List LearningSession) : AnalysisResult :=
  match remote with
  | some response => response
  | none => generateFallbackAnalysis learning_data

/-! ### General lemmas about the Python sort and dict models -/

/-- Membership in a stable descending insertion. -/
theorem mem_pyInsertDesc {α : Type} (key : α → ℚ) (x : α) (l : List α) (a : α) :
    a ∈ pyInsertDesc key x l ↔ a = x ∨ a ∈ l := by
  induction l with
  | nil => simp [pyInsertDesc]
  | cons y ys ih =>
      by_cases h : key y ≤ key x
      · simp [pyInsertDesc, h]
      · simp only [pyInsertDesc, if_neg h, List.mem_cons, ih]
        tauto

/-- Any list is pairwise related by a reflexive-total relation built from
a constant inequality. -/
theorem pairwise_of_rel_all {α : Type} {R : α → α → Prop} (h : ∀ a b, R a b) :
    ∀ l : List α, l.Pairwise R
  | [] => List.Pairwise.nil
  | x :: xs => List.pairwise_cons.mpr ⟨fun b _ => h x b, pairwise_of_rel_all h xs⟩

/-- Stable descending insertion preserves descending sortedness. -/
theorem pairwise_pyInsertDesc {α : Type} (key : α → ℚ) (x : α) (l : List α)
    (h : l.Pairwise fun a b => key b ≤ key a) :
    (pyInsertDesc key x l).Pairwise fun a b => key b ≤ key a := by
  induction l with
  | nil => simp [pyInsertDesc]
  | cons y ys ih =>
      rcases List.pairwise_cons.mp h with ⟨hy, hys⟩
      by_cases hxy : key y ≤ key x
      · rw [pyInsertDesc, if_pos hxy]
        refine List.pairwise_cons.mpr ⟨?_, h⟩
        intro b hb
        rcases List.mem_cons.mp hb with rfl | hb
        · exact hxy
        · exact le_trans (hy b hb) hxy
      · rw [pyInsertDesc, if_neg hxy]
        refine List.pairwise_cons.mpr ⟨?_, ih hys⟩
        intro b hb
        rcases (mem_pyInsertDesc key x ys b).mp hb with rfl | hb
        · exact (lt_of_not_le hxy).le
        · exact hy b hb

/-- The descending sort is sorted: its output is pairwise descending in
the key. -/
theorem pairwise_pySortDesc {α : Type} (key : α → ℚ) (l : List α) :
    (pySortDesc key l).Pairwise fun a b => key b ≤ key a := by
  induction l with
  | nil => exact List.Pairwise.nil
  | cons x xs ih => exact pairwise_pyInsertDesc key x _ ih

/-- Inserting above every element of a list prepends. -/
theorem pyInsertDesc_eq_cons {α : Type} (key : α → ℚ) (x : α) (l : List α)
    (h : ∀ b ∈ l, key b ≤ key x) :
    pyInsertDesc key x l = x :: l := by
  cases l with
  | nil => rfl
  | cons y ys => rw [pyInsertDesc, if_pos (h y (List.mem_cons_self y ys))]

/-- Stability consequence: an already descending list is left untouched
by the descending sort, so ties keep their input order. -/
theorem pySortDesc_eq_self {α : Type} (key : α → ℚ) (l : List α)
    (h : l.Pairwise fun a b => key b ≤ key a) :
    pySortDesc key l = l := by
  induction l with
  | nil => rfl
  | cons x xs ih =>
      rcases List.pairwise_cons.mp h with ⟨hx, hxs⟩
      show pyInsertDesc key x (pySortDesc key xs) = x :: xs
      rw [ih hxs]
      exact pyInsertDesc_eq_cons key x xs hx

/-- Stable insertion and filtering on one key value: the inserted
element lands in front of every element of its key class, and the class
order is otherwise untouched. -/
theorem filter_pyInsertDesc {α : Type} (key : α → ℚ) (c : ℚ) (x : α) (l : List α) :
    (pyInsertDesc key x l).filter (fun z => key z = c) =
      if key x = c then x :: l.filter (fun z => key z = c)
      else l.filter (fun z => key z = c) := by
  induction l with
  | nil => by_cases h : key x = c <;> simp [pyInsertDesc, h]
  | cons y ys ih =>
      by_cases hxy : key y ≤ key x
      · rw [pyInsertDesc, if_pos hxy]
        by_cases hx : key x = c <;> simp [List.filter_cons, hx]
      · rw [pyInsertDesc, if_neg hxy]
        by_cases hx : key x = c <;> by_cases hy : key y = c
        · exact absurd (le_of_eq (hy.trans hx.symm)) hxy
        · simp [List.filter_cons, hx, hy, ih]
        · simp [List.filter_cons, hx, hy, ih]
        · simp [List.filter_cons, hx, hy, ih]

/-- Stability of the descending sort: for every key value `c`, the
subsequence of elements whose key is `c` is exactly the same, in the
same order, before and after sorting. -/
theorem filter_pySortDesc {α : Type} (key : α → ℚ) (c : ℚ) (l : List α) :
    (pySortDesc key l).filter (fun z => key z = c) =
      l.filter (fun z => key z = c) := by
  induction l with
  | nil => rfl
  | cons x xs ih =>
      show (pyInsertDesc key x (pySortDesc key xs)).filter _ = _
      rw [filter_pyInsertDesc]
      by_cases hx : key x = c <;> simp [hx, ih]

/-- Ascending stable insertion adds one element. -/
theorem length_pyInsertAsc {α : Type} (key : α → ℚ) (x : α) (l : List α) :
    (pyInsertAsc key x l).length = l.length + 1 := by
  induction l with
  | nil => rfl
  | cons y ys ih => by_cases h : key x ≤ key y <;> simp [pyInsertAsc, h, ih]

/-- The ascending sort permutes, hence preserves length. -/
theorem length_pySortAsc {α : Type} (key : α → ℚ) (l : List α) :
    (pySortAsc key l).length = l.length := by
  induction l with
  | nil => rfl
  | cons x xs ih =>
      show (pyInsertAsc key x (pySortAsc key xs)).length = _
      rw [length_pyInsertAsc, ih]
      rfl

/-- Reading the updated key of a dict store after an in-place update. -/
theorem dictGet_dictUpdate_self {β : Type} (k : String) (f : β → β)
    (g : List (String × β)) :
    dictGet k (dictUpdate k f g) = (dictGet k g).map f := by
  induction g with
  | nil => rfl
  | cons p ps ih =>
      by_cases h : p.1 = k
      · simp [dictUpdate, dictGet, h]
      · have h1 : dictUpdate k f (p :: ps) = p :: dictUpdate k f ps := by
          simp [dictUpdate, h]
        rw [h1]
        simp [dictGet, h, ih]

/-- Reading any other key of a dict store after an in-place update. -/
theorem dictGet_dictUpdate_ne {β : Type} (k k' : String) (f : β → β)
    (g : List (String × β)) (h : k' ≠ k) :
    dictGet k' (dictUpdate k f g) = dictGet k' g := by
  induction g with
  | nil => rfl
  | cons p ps ih =>
      by_cases hp : p.1 = k
      · have h1 : dictUpdate k f (p :: ps) = (p.1, f p.2) :: dictUpdate k f ps := by
          simp [dictUpdate, hp]
        have hp' : ¬ p.1 = k' := fun hc => h (hc.symm.trans hp)
        rw [h1]
        simp [dictGet, hp', ih]
      · have h1 : dictUpdate k f (p :: ps) = p :: dictUpdate k f ps := by
          simp [dictUpdate, hp]
        rw [h1]
        by_cases hq : p.1 = k' <;> simp [dictGet, hq, ih]

/-! ### Claims about the AI learning engine -/

/-- Helper: every multiplier in the difficulty table is at least 1. -/
theorem one_le_difficultyMultipliers (difficulty : String) :
    1 ≤ difficultyMultipliers difficulty := by
  unfold difficultyMultipliers
  split_ifs <;> norm_num

/-- C1: for every score and difficulty label the mastery level computed
by `analyze_performance` is `min (score * multiplier / 100) 1` with the
multiplier table beginner→1.0, medium→1.2, advanced→1.5, expert→2.0 and
default 1.0 for unrecognized labels; for any non-negative score it lies
in [0, 1]; in particular score 100 at difficulty "expert" yields mastery
1, not 2. -/
theorem claim_C1 (score : ℚ) (difficulty : String) (profiles : List String)
    (student_id : String) (pd : PerformanceData)
    (hscore : 0 ≤ score) (hmem : student_id ∈ profiles) :
    calculateMasteryLevel score difficulty
        = min (score * difficultyMultipliers difficulty / 100) 1 ∧
    difficultyMultipliers "beginner" = 1 ∧
    difficultyMultipliers "medium" = 1.2 ∧
    difficultyMultipliers "advanced" = 1.5 ∧
    difficultyMultipliers "expert" = 2 ∧
    (difficulty ≠ "beginner" → difficulty ≠ "medium" → difficulty ≠ "advanced" →
      difficulty ≠ "expert" → difficultyMultipliers difficulty = 1) ∧
    0 ≤ calculateMasteryLevel score difficulty ∧
    calculateMasteryLevel score difficulty ≤ 1 ∧
    calculateMasteryLevel 100 "expert" = 1 ∧
    (analyzePerformance profiles student_id pd).map (fun a => a.mastery_level)
        = some (calculateMasteryLevel pd.score pd.difficulty) := by
  refine ⟨by norm_num [calculateMasteryLevel], by simp [difficultyMultipliers] <;> norm_num,
    by simp [difficultyMultipliers] <;> norm_num, by simp [difficultyMultipliers] <;> norm_num,
    by simp [difficultyMultipliers] <;> norm_num, ?_, ?_, ?_, ?_, ?_⟩
  · intro h1 h2 h3 h4
    simp only [difficultyMultipliers, if_neg h1, if_neg h2, if_neg h3, if_neg h4]
    norm_num
  · refine le_min ?_ (by norm_num)
    refine div_nonneg (mul_nonneg hscore ?_) (by norm_num)
    exact le_trans (by norm_num) (one_le_difficultyMultipliers difficulty)
  · exact le_trans (min_le_right _ _) (by norm_num)
  · have hexp : difficultyMultipliers "expert" = 2 := by simp [difficultyMultipliers] <;> norm_num
    rw [calculateMasteryLevel, hexp]
    norm_num
  · simp [analyzePerformance, hmem]

/-- Witness for C1 at score 100, difficulty "expert", a stored student. -/
theorem claim_C1_witness :
    calculateMasteryLevel 100 "expert"
        = min ((100 : ℚ) * difficultyMultipliers "expert" / 100) 1 ∧
    0 ≤ calculateMasteryLevel 100 "expert" ∧
    calculateMasteryLevel 100 "expert" ≤ 1 ∧
    calculateMasteryLevel 100 "expert" = 1 ∧
    (analyzePerformance ["s1"] "s1"
        { score := 100, time_spent := 5, difficulty := "expert", completion_rate := 1 }).map
      (fun a => a.mastery_level) = some (calculateMasteryLevel 100 "expert") := by
  have h := claim_C1 100 "expert" ["s1"] "s1"
    { score := 100, time_spent := 5, difficulty := "expert", completion_rate := 1 }
    (by norm_num) (by simp)
  exact ⟨h.1, h.2.2.2.2.2.2.1, h.2.2.2.2.2.2.2.1, h.2.2.2.2.2.2.2.2.1,
    h.2.2.2.2.2.2.2.2.2⟩

/-- C4 counterexample: the claim says `time_spent = 0` gives efficiency
`score / max(time_spent, 1) = score`; on the code, student "s1" with
score 50 and `time_spent = 0` gets efficiency 0, while the claimed
formula gives 50. -/
theorem claim_C4_counterexample :
    (analyzePerformance ["s1"] "s1"
        { score := 50, time_spent := 0, difficulty := "medium", completion_rate := 1 }).map
      (fun a => a.efficiency) = some 0 ∧
    (50 : ℚ) / max (0 : ℚ) 1 = 50 ∧ (0 : ℚ) ≠ 50 := by
  refine ⟨by simp [analyzePerformance], by norm_num, by norm_num⟩

/-- C4 as amended: the efficiency returned by `analyze_performance`
equals `score / max(time_spent, 1)` only when `time_spent > 0` (hence
`score / time_spent` when `time_spent ≥ 1`); when `time_spent ≤ 0` — in
particular at `time_spent = 0` — it equals 0, not the score. -/
theorem claim_C4 (profiles : List String) (student_id : String)
    (pd : PerformanceData) (hmem : student_id ∈ profiles) :
    ∃ a, analyzePerformance profiles student_id pd = some a ∧
      (0 < pd.time_spent → a.efficiency = pd.score / max pd.time_spent 1) ∧
      (1 ≤ pd.time_spent → a.efficiency = pd.score / pd.time_spent) ∧
      (pd.time_spent ≤ 0 → a.efficiency = 0) := by
  rw [analyzePerformance, if_pos hmem]
  refine ⟨_, rfl, ?_, ?_, ?_⟩
  · intro h
    simp [h]
  · intro h
    have h0 : (0 : ℚ) < pd.time_spent := lt_of_lt_of_le one_pos h
    simp [h0, max_eq_left h]
  · intro h
    simp [not_lt.mpr h]

/-- Witness for C4 at a stored student with score 50 over 2 minutes. -/
theorem claim_C4_witness :
    ∃ a, analyzePerformance ["s1"] "s1"
        { score := 50, time_spent := 2, difficulty := "medium", completion_rate := 1 }
        = some a ∧
      a.efficiency = 50 / max (2 : ℚ) 1 ∧ a.efficiency = (50 : ℚ) / 2 := by
  obtain ⟨a, h1, h2, h3, h4⟩ := claim_C4 ["s1"] "s1"
    { score := 50, time_spent := 2, difficulty := "medium", completion_rate := 1 }
    (by simp)
  exact ⟨a, h1, h2 (by norm_num), h3 (by norm_num)⟩

/-- Helper: scores occurring in `_recommend_content` output. -/
theorem relevance_mem_recommendContent (p : StudentProfile) (r : Recommendation)
    (h : r ∈ recommendContent p) :
    r.relevance_score = 0.9 ∨ r.relevance_score = 0.85 := by
  rcases List.mem_append.mp h with h1 | h1
  · rcases List.mem_map.mp h1 with ⟨i, _, rfl⟩
    exact Or.inl rfl
  · rcases List.mem_map.mp h1 with ⟨w, _, rfl⟩
    exact Or.inr rfl

/-- Helper: scores occurring in `_recommend_activities` output. -/
theorem relevance_mem_recommendActivities (r : Recommendation)
    (h : r ∈ recommendActivities) :
    r.relevance_score = 0.8 ∨ r.relevance_score = 0.75 := by
  rcases List.mem_cons.mp h with rfl | h1
  · exact Or.inl rfl
  · rcases List.mem_cons.mp h1 with rfl | h2
    · exact Or.inr rfl
    · exact absurd h2 (List.not_mem_nil r)

/-- Helper: score of the peer-learning entry. -/
theorem relevance_mem_recommendPeerLearning (r : Recommendation)
    (h : r ∈ recommendPeerLearning) : r.relevance_score = 0.7 := by
  rcases List.mem_cons.mp h with rfl | h1
  · rfl
  · exact absurd h1 (List.not_mem_nil r)

/-- Helper: the merged recommendation list (interests 0.9, weaknesses
0.85, activities 0.8 and 0.75, peer 0.7) is already descending in
relevance, so the stable sort leaves it unchanged. -/
theorem pairwise_mergedRecs (p : StudentProfile) :
    (recommendContent p ++ recommendActivities ++ recommendPeerLearning).Pairwise
      (fun a b => b.relevance_score ≤ a.relevance_score) := by
  rw [List.pairwise_append]
  refine ⟨?_, ?_, ?_⟩
  · rw [List.pairwise_append]
    refine ⟨?_, ?_, ?_⟩
    · rw [recommendContent, List.pairwise_append]
      refine ⟨?_, ?_, ?_⟩
      · rw [List.pairwise_map]
        exact pairwise_of_rel_all (fun a b => le_refl _) _
      · rw [List.pairwise_map]
        exact pairwise_of_rel_all (fun a b => le_refl _) _
      · intro a ha b hb
        rcases List.mem_map.mp ha with ⟨i, _, rfl⟩
        rcases List.mem_map.mp hb with ⟨w, _, rfl⟩
        norm_num
    · rw [recommendActivities, List.pairwise_cons]
      refine ⟨?_, ?_⟩
      · intro b hb
        rcases List.mem_cons.mp hb with rfl | hb1
        · norm_num
        · exact absurd hb1 (List.not_mem_nil b)
      · refine List.pairwise_cons.mpr ⟨?_, List.Pairwise.nil⟩
        intro b hb
        exact absurd hb (List.not_mem_nil b)
    · intro a ha b hb
      rcases relevance_mem_recommendContent p a ha with h1 | h1 <;>
        rcases relevance_mem_recommendActivities b hb with h2 | h2 <;>
          rw [h1, h2] <;> norm_num
  · rw [recommendPeerLearning]
    refine List.pairwise_cons.mpr ⟨?_, List.Pairwise.nil⟩
    intro b hb
    exact absurd hb (List.not_mem_nil b)
  · intro a ha b hb
    rw [relevance_mem_recommendPeerLearning b hb]
    rcases List.mem_append.mp ha with h1 | h1
    · rcases relevance_mem_recommendContent p a h1 with h2 | h2 <;> rw [h2] <;> norm_num
    · rcases relevance_mem_recommendActivities a h1 with h2 | h2 <;> rw [h2] <;> norm_num

/-- C2: for every stored profile, `get_recommendations` returns at most
10 items, pairwise descending in relevance, and the output is exactly
the first 10 of the merged sub-lists in their merge order (interests,
then weaknesses, then the two activity entries, then the peer entry) —
Python sort is stable, so ties keep that order and interest items (0.9)
precede weakness items (0.85). -/
theorem claim_C2 (profiles : List (String × StudentProfile)) (student_id : String)
    (p : StudentProfile) (h : dictGet student_id profiles = some p) :
    ∃ recs, getRecommendations profiles student_id = some recs ∧
      recs.length ≤ 10 ∧
      recs.Pairwise (fun a b => b.relevance_score ≤ a.relevance_score) ∧
      recs = (recommendContent p ++ recommendActivities ++ recommendPeerLearning).take 10 := by
  refine ⟨recommendForProfile p, ?_, ?_, ?_, ?_⟩
  · rw [getRecommendations, h]
    rfl
  · exact List.length_take_le 10 _
  · exact (pairwise_pySortDesc (fun r : Recommendation => r.relevance_score) _).sublist
      (List.take_sublist _ _)
  · rw [recommendForProfile,
      pySortDesc_eq_self (fun r : Recommendation => r.relevance_score) _
        (pairwise_mergedRecs p)]

/-- Witness for C2 at a one-profile store. -/
theorem claim_C2_witness :
    ∃ recs, getRecommendations
        [("s1", { interests := ["AI"], weaknesses := ["math"] })] "s1" = some recs ∧
      recs.length ≤ 10 ∧
      recs.Pairwise (fun a b => b.relevance_score ≤ a.relevance_score) ∧
      recs = (recommendContent { interests := ["AI"], weaknesses := ["math"] } ++
        recommendActivities ++ recommendPeerLearning).take 10 :=
  claim_C2 [("s1", { interests := ["AI"], weaknesses := ["math"] })] "s1"
    { interests := ["AI"], weaknesses := ["math"] } (by simp [dictGet])

/-- C5 counterexample: with interests ["AI","art"] and weaknesses
["math"] the six returned recommendations do NOT carry pairwise
distinct relevance scores — the two interest items both score 0.9. -/
theorem claim_C5_counterexample :
    ∃ recs, getRecommendations
        [("s1", { interests := ["AI", "art"], weaknesses := ["math"] })] "s1"
        = some recs ∧
      recs.map (fun r => r.relevance_score) = [0.9, 0.9, 0.85, 0.8, 0.75, 0.7] ∧
      ¬ recs.Pairwise (fun a b => a.relevance_score ≠ b.relevance_score) := by
  have hmap : (recommendForProfile
        { interests := ["AI", "art"], weaknesses := ["math"] }).map
      (fun r => r.relevance_score) = [0.9, 0.9, 0.85, 0.8, 0.75, 0.7] := by
    norm_num [recommendForProfile, recommendContent, recommendActivities,
      recommendPeerLearning, pySortDesc, pyInsertDesc]
  refine ⟨_, by rw [getRecommendations]; simp [dictGet], hmap, ?_⟩
  intro hcontra
  have h2 : ((recommendForProfile
        { interests := ["AI", "art"], weaknesses := ["math"] }).map
      (fun r => r.relevance_score)).Pairwise (fun a b => a ≠ b) :=
    List.pairwise_map.mpr hcontra
  rw [hmap] at h2
  simp [List.pairwise_cons] at h2

/-- C5 as amended: that profile yields exactly 6 recommendations, titled
Advanced AI, Advanced art, Master math, Collaborative Project, Quiz
Challenge, Study Group in that order, with relevance scores
[0.9, 0.9, 0.85, 0.8, 0.75, 0.7] sorted descending — the two
interest-derived items tie at 0.9 (so the scores are not pairwise
distinct), the other four scores are distinct. -/
theorem claim_C5 :
    ∃ recs, getRecommendations
        [("s1", { interests := ["AI", "art"], weaknesses := ["math"] })] "s1"
        = some recs ∧
      recs.length = 6 ∧
      recs.map (fun r => r.title) =
        ["Advanced AI", "Advanced art", "Master math", "Collaborative Project",
          "Quiz Challenge", "Study Group"] ∧
      recs.map (fun r => r.relevance_score) = [0.9, 0.9, 0.85, 0.8, 0.75, 0.7] ∧
      recs.Pairwise (fun a b => b.relevance_score ≤ a.relevance_score) := by
  refine ⟨recommendForProfile { interests := ["AI", "art"], weaknesses := ["math"] },
    by rw [getRecommendations]; simp [dictGet], ?_, ?_, ?_, ?_⟩
  · norm_num [recommendForProfile, recommendContent, recommendActivities,
      recommendPeerLearning, pySortDesc, pyInsertDesc]
  · norm_num [recommendForProfile, recommendContent, recommendActivities,
      recommendPeerLearning, pySortDesc, pyInsertDesc]
    decide
  · norm_num [recommendForProfile, recommendContent, recommendActivities,
      recommendPeerLearning, pySortDesc, pyInsertDesc]
  · exact (pairwise_pySortDesc (fun r : Recommendation => r.relevance_score) _).sublist
      (List.take_sublist _ _)

/-! ### Claims about the urban art gallery -/

/-- Helper: writing the popularity score does not change the score a
piece sorts by (it reads only likes and views). -/
theorem popScore_withPopScore (a : ArtPiece) :
    popScore (withPopScore a) = popScore a := rfl

/-- Helper: filtering by score value commutes with the in-place score
write, which touches no field the filter reads. -/
theorem filter_popScore_map_withPopScore (c : ℚ) (l : List ArtPiece) :
    (l.map withPopScore).filter (fun a => popScore a = c) =
      (l.filter (fun a => popScore a = c)).map withPopScore := by
  induction l with
  | nil => rfl
  | cons x xs ih =>
      by_cases h : popScore x = c <;>
        simp [List.filter_cons, popScore_withPopScore, h, ih]

/-- C3: for every gallery state and limit, `get_popular_art` returns at
most `limit` pieces, pairwise descending in the popularity score
`likes*2 + views*0.1`, and for each score value the returned pieces of
that score are a prefix-order-preserving subsequence of the gallery's
pieces of that score (in gallery insertion order, with the score field
written in) — ties keep their original relative order. -/
theorem claim_C3 (gallery : List (String × ArtPiece)) (limit : Nat) :
    ((getPopularArt gallery limit).2).length ≤ limit ∧
    ((getPopularArt gallery limit).2).Pairwise
      (fun a b => popScore b ≤ popScore a) ∧
    ∀ c : ℚ,
      List.Sublist
        (((getPopularArt gallery limit).2).filter (fun a => popScore a = c))
        (((gallery.map fun p => p.2).filter (fun a => popScore a = c)).map withPopScore) := by
  refine ⟨List.length_take_le limit _, ?_, ?_⟩
  · exact (pairwise_pySortDesc popScore _).sublist (List.take_sublist _ _)
  · intro c
    have base : List.Sublist
        (((pySortDesc popScore ((gallery.map fun p => withPopScore p.2))).take limit).filter
          (fun a => popScore a = c))
        ((pySortDesc popScore ((gallery.map fun p => withPopScore p.2))).filter
          (fun a => popScore a = c)) :=
      (List.take_sublist _ _).filter _
    rw [filter_pySortDesc popScore c] at base
    have h3 : (gallery.map fun p => withPopScore p.2) =
        (gallery.map fun p => p.2).map withPopScore := by
      rw [List.map_map]
      rfl
    have heq : ((gallery.map fun p => withPopScore p.2)).filter (fun a => popScore a = c) =
        (((gallery.map fun p => p.2)).filter (fun a => popScore a = c)).map withPopScore := by
      rw [h3, filter_popScore_map_withPopScore]
    exact heq ▸ base

/-- C6 counterexample: the claim says `get_popular_art` leaves every
stored piece unchanged; on a one-piece gallery whose piece has no
`popularity_score` key, the call writes the key into the stored dict,
so the store after the call differs from the store before it. -/
theorem claim_C6_counterexample :
    (getPopularArt
        [("a1",
          { id := "a1", prompt := "city", style := "modern", user_id := none,
            title := "City - Modern Urban Style", description := "d",
            metadata :=
              { prompt_length := 4, style := "modern",
                generation_model := "CitySpark-Art-v1.0", resolution := "1920x1080",
                format := "digital_art", keywords := ["modern"] },
            image_url := "u", thumbnail_url := "v", tags := ["modern"],
            created_at := 0, likes := 1, views := 3, featured := false,
            updated_at := none, popularity_score := none })] 10).1 ≠
      [("a1",
        { id := "a1", prompt := "city", style := "modern", user_id := none,
          title := "City - Modern Urban Style", description := "d",
          metadata :=
            { prompt_length := 4, style := "modern",
              generation_model := "CitySpark-Art-v1.0", resolution := "1920x1080",
              format := "digital_art", keywords := ["modern"] },
          image_url := "u", thumbnail_url := "v", tags := ["modern"],
          created_at := 0, likes := 1, views := 3, featured := false,
          updated_at := none, popularity_score := none })] := by
  intro hcontra
  have h1 := congrArg (fun g => (dictGet "a1" g).map fun a => a.popularity_score) hcontra
  simp [getPopularArt, withPopScore, dictGet] at h1

/-- C6 as amended: `get_popular_art` reads likes and views but does
mutate the gallery: it writes `popularity_score = likes*2 + views*0.1`
into every stored piece, leaving every other field (and the store's
keys and order) unchanged. -/
theorem claim_C6 (gallery : List (String × ArtPiece)) (limit : Nat) :
    ((getPopularArt gallery limit).1).length = gallery.length ∧
    (∀ i : Nat, ((getPopularArt gallery limit).1).get? i
        = (gallery.get? i).map fun p => (p.1, withPopScore p.2)) ∧
    (∀ a : ArtPiece, (withPopScore a).id = a.id ∧ (withPopScore a).prompt = a.prompt ∧
      (withPopScore a).style = a.style ∧ (withPopScore a).user_id = a.user_id ∧
      (withPopScore a).title = a.title ∧ (withPopScore a).description = a.description ∧
      (withPopScore a).metadata = a.metadata ∧ (withPopScore a).image_url = a.image_url ∧
      (withPopScore a).thumbnail_url = a.thumbnail_url ∧ (withPopScore a).tags = a.tags ∧
      (withPopScore a).created_at = a.created_at ∧ (withPopScore a).likes = a.likes ∧
      (withPopScore a).views = a.views ∧ (withPopScore a).featured = a.featured ∧
      (withPopScore a).updated_at = a.updated_at ∧
      (withPopScore a).popularity_score = some ((a.likes : ℚ) * 2 + (a.views : ℚ) * 0.1)) := by
  refine ⟨List.length_map _ _, ?_, ?_⟩
  · intro i
    exact List.get?_map _ _ _
  · intro a
    exact ⟨rfl, rfl, rfl, rfl, rfl, rfl, rfl, rfl, rfl, rfl, rfl, rfl, rfl, rfl, rfl, rfl⟩

/-- C7: viewing an existing piece twice increments its stored views
counter by exactly 2, one per call, and leaves likes, updated_at and
every other field of the piece — and every other stored piece —
unchanged. -/
theorem claim_C7 (gallery : List (String × ArtPiece)) (art_id : String)
    (a : ArtPiece) (h : dictGet art_id gallery = some a) :
    ∃ g1 r1 g2 r2,
      viewArt gallery art_id = some (g1, r1) ∧
      viewArt g1 art_id = some (g2, r2) ∧
      r1 = { a with views := a.views + 1 } ∧
      r2 = { a with views := a.views + 2 } ∧
      r1.views = a.views + 1 ∧ r1.likes = a.likes ∧ r1.updated_at = a.updated_at ∧
      r2.views = a.views + 2 ∧ r2.likes = a.likes ∧ r2.updated_at = a.updated_at ∧
      dictGet art_id g1 = some r1 ∧ dictGet art_id g2 = some r2 ∧
      (∀ k, k ≠ art_id → dictGet k g1 = dictGet k gallery) ∧
      (∀ k, k ≠ art_id → dictGet k g2 = dictGet k gallery) := by
  have h1 : viewArt gallery art_id =
      some (dictUpdate art_id (fun b => { b with views := b.views + 1 }) gallery,
        { a with views := a.views + 1 }) := by
    rw [viewArt, h]
    rfl
  have hget1 : dictGet art_id
      (dictUpdate art_id (fun b => { b with views := b.views + 1 }) gallery) =
        some { a with views := a.views + 1 } := by
    rw [dictGet_dictUpdate_self, h]
    rfl
  have h2 : viewArt
      (dictUpdate art_id (fun b => { b with views := b.views + 1 }) gallery) art_id =
      some (dictUpdate art_id (fun b => { b with views := b.views + 1 })
          (dictUpdate art_id (fun b => { b with views := b.views + 1 }) gallery),
        { a with views := a.views + 1 + 1 }) := by
    rw [viewArt, hget1]
    rfl
  have hget2 : dictGet art_id
      (dictUpdate art_id (fun b => { b with views := b.views + 1 })
        (dictUpdate art_id (fun b => { b with views := b.views + 1 }) gallery)) =
        some { a with views := a.views + 1 + 1 } := by
    rw [dictGet_dictUpdate_self, hget1]
    rfl
  have hne1 : ∀ k, k ≠ art_id →
      dictGet k (dictUpdate art_id (fun b => { b with views := b.views + 1 }) gallery) =
        dictGet k gallery :=
    fun k hk => dictGet_dictUpdate_ne art_id k _ gallery hk
  have hne2 : ∀ k, k ≠ art_id →
      dictGet k (dictUpdate art_id (fun b => { b with views := b.views + 1 })
          (dictUpdate art_id (fun b => { b with views := b.views + 1 }) gallery)) =
        dictGet k gallery := by
    intro k hk
    rw [dictGet_dictUpdate_ne art_id k _ _ hk,
      dictGet_dictUpdate_ne art_id k _ gallery hk]
  exact ⟨_, _, _, _, h1, h2, rfl, rfl, rfl, rfl, rfl, rfl, rfl, rfl, hget1, hget2,
    hne1, hne2⟩

/-- Witness for C7 on a concrete one-piece gallery. -/
theorem claim_C7_witness :
    ∃ g1 r1 g2 r2,
      viewArt
        [("a1",
          { id := "a1", prompt := "city", style := "modern", user_id := none,
            title := "t", description := "d",
            metadata :=
              { prompt_length := 4, style := "modern",
                generation_model := "CitySpark-Art-v1.0", resolution := "1920x1080",
                format := "digital_art", keywords := ["modern"] },
            image_url := "u", thumbnail_url := "v", tags := ["modern"],
            created_at := 0, likes := 2, views := 5, featured := false,
            updated_at := none, popularity_score := none })] "a1" = some (g1, r1) ∧
      viewArt g1 "a1" = some (g2, r2) ∧
      r1.views = 6 ∧ r2.views = 7 ∧ r1.likes = 2 ∧ r2.likes = 2 ∧
      r1.updated_at = none ∧ r2.updated_at = none := by
  obtain ⟨g1, r1, g2, r2, hv1, hv2, he1, he2, hv1', hl1, hu1, hv2', hl2, hu2, _⟩ :=
    claim_C7
      [("a1",
        { id := "a1", prompt := "city", style := "modern", user_id := none,
          title := "t", description := "d",
          metadata :=
            { prompt_length := 4, style := "modern",
              generation_model := "CitySpark-Art-v1.0", resolution := "1920x1080",
              format := "digital_art", keywords := ["modern"] },
          image_url := "u", thumbnail_url := "v", tags := ["modern"],
          created_at := 0, likes := 2, views := 5, featured := false,
          updated_at := none, popularity_score := none })] "a1"
      { id := "a1", prompt := "city", style := "modern", user_id := none,
        title := "t", description := "d",
        metadata :=
          { prompt_length := 4, style := "modern",
            generation_model := "CitySpark-Art-v1.0", resolution := "1920x1080",
            format := "digital_art", keywords := ["modern"] },
        image_url := "u", thumbnail_url := "v", tags := ["modern"],
        created_at := 0, likes := 2, views := 5, featured := false,
        updated_at := none, popularity_score := none }
      (by simp [dictGet])
  exact ⟨g1, r1, g2, r2, hv1, hv2, by rw [hv1'], by rw [hv2'],
    by rw [hl1], by rw [hl2], by rw [hu1], by rw [hu2]⟩

/-! ### Claims about the analytics engine -/

/-- Helper: the user/window filter followed by an event-type filter is
one filter over the conjunction. -/
theorem filter_window_etype (events : List AnalyticsEvent) (user_id : String)
    (cutoff : ℚ) (t : String) :
    ((events.filter fun e => e.user_id = user_id ∧ cutoff ≤ e.time).filter
        fun e => e.etype = t) =
      events.filter fun e => e.user_id = user_id ∧ cutoff ≤ e.time ∧ e.etype = t := by
  rw [List.filter_filter]
  congr 1
  funext e
  by_cases h1 : e.user_id = user_id <;> by_cases h2 : cutoff ≤ e.time <;>
    by_cases h3 : e.etype = t <;> simp [h1, h2, h3]

/-- C8 counterexample: user "u" has two `module_started` and one
`module_completed` events in the window; the returned completion_rate is
50 (a percentage), while the claimed plain ratio completed/started is
1/2 ≠ 50. -/
theorem claim_C8_counterexample :
    (calculateUserMetrics [sampleStarted1, sampleStarted2, sampleCompleted]
        "u" 30 2).completion_rate = 50 ∧
      (1 : ℚ) / 2 ≠ 50 := by
  constructor
  · show calcCompletionRate
        (List.filter (fun e => e.user_id = "u" ∧ (2 : ℚ) - 30 ≤ e.time)
          [sampleStarted1, sampleStarted2, sampleCompleted]) = 50
    have hw : (List.filter (fun e => e.user_id = "u" ∧ (2 : ℚ) - 30 ≤ e.time)
        [sampleStarted1, sampleStarted2, sampleCompleted]) =
        [sampleStarted1, sampleStarted2, sampleCompleted] := by
      norm_num [List.filter_cons, sampleStarted1, sampleStarted2, sampleCompleted]
    have hs : (List.filter (fun e => e.etype = "module_started")
        [sampleStarted1, sampleStarted2, sampleCompleted]) =
        [sampleStarted1, sampleStarted2] := by
      simp [List.filter_cons, sampleStarted1, sampleStarted2, sampleCompleted]
    have hc : (List.filter (fun e => e.etype = "module_completed")
        [sampleStarted1, sampleStarted2, sampleCompleted]) = [sampleCompleted] := by
      simp [List.filter_cons, sampleStarted1, sampleStarted2, sampleCompleted]
    rw [hw, calcCompletionRate, hs, hc]
    rw [if_neg (by simp)]
    norm_num
  · norm_num

/-- C8 as amended: the completion_rate returned by
`calculate_user_metrics` is the PERCENTAGE
`100 × completed / started` over the user's events in the trailing
window (module_completed count over module_started count), and 0 when
the window holds no module_started event. -/
theorem claim_C8 (events : List AnalyticsEvent) (user_id : String) (days now : ℚ) :
    (calculateUserMetrics events user_id days now).completion_rate =
      if events.countP (fun e => e.user_id = user_id ∧ now - days ≤ e.time ∧
          e.etype = "module_started") = 0 then 0
      else 100 * ((events.countP fun e => e.user_id = user_id ∧ now - days ≤ e.time ∧
          e.etype = "module_completed") : ℚ) /
        ((events.countP fun e => e.user_id = user_id ∧ now - days ≤ e.time ∧
          e.etype = "module_started") : ℚ) := by
  show calcCompletionRate
      (events.filter fun e => e.user_id = user_id ∧ now - days ≤ e.time) = _
  rw [calcCompletionRate, filter_window_etype events user_id (now - days) "module_started",
    filter_window_etype events user_id (now - days) "module_completed",
    List.countP_eq_length_filter, List.countP_eq_length_filter]
  by_cases h : (events.filter fun e => e.user_id = user_id ∧ now - days ≤ e.time ∧
      e.etype = "module_started") = []
  · rw [if_pos h, if_pos (by rw [h]; rfl)]
  · have hlen : ((events.filter fun e => e.user_id = user_id ∧ now - days ≤ e.time ∧
        e.etype = "module_started")).length ≠ 0 := by
      simpa [List.length_eq_zero] using h
    rw [if_neg h, if_neg hlen]
    ring

/-- C10: a user with exactly 3 quiz_completed events never receives the
"Improving Performance" insight: with 3 quiz events the last-3 and
first-3 averages are taken over the same events, and the detector
compares them strictly. -/
theorem claim_C10 (events : List AnalyticsEvent) (user_id : String)
    (h : (events.filter fun e =>
        e.user_id = user_id ∧ e.etype = "quiz_completed").length = 3) :
    ∀ ins ∈ generateInsights events user_id, ins.title ≠ "Improving Performance" := by
  have hq : ((events.filter fun e => e.user_id = user_id).filter
        fun e => e.etype = "quiz_completed") =
      events.filter fun e => e.user_id = user_id ∧ e.etype = "quiz_completed" := by
    rw [List.filter_filter]
    congr 1
    funext e
    by_cases h1 : e.user_id = user_id <;> by_cases h2 : e.etype = "quiz_completed" <;>
      simp [h1, h2]
  have hlen : ((events.filter fun e => e.user_id = user_id).filter
      fun e => e.etype = "quiz_completed").length = 3 := by
    rw [hq]
    exact h
  have hslen : (pySortAsc (fun e => e.time)
      ((events.filter fun e => e.user_id = user_id).filter
        fun e => e.etype = "quiz_completed")).length = 3 := by
    rw [length_pySortAsc]
    exact hlen
  have himp : isImproving (events.filter fun e => e.user_id = user_id) = false := by
    simp only [isImproving]
    rw [length_pySortAsc, hlen, if_neg (by norm_num), Nat.sub_self, List.drop_zero,
      ← hslen, List.take_length]
    exact decide_eq_false (lt_irrefl _)
  intro ins hins
  rw [generateInsights, himp] at hins
  simp only [if_neg Bool.false_ne_true, List.append_nil] at hins
  by_cases hn : isNightLearner (events.filter fun e => e.user_id = user_id) = true
  · rw [if_pos hn] at hins
    rcases List.mem_cons.mp hins with rfl | hfalse
    · intro hcontra
      exact absurd hcontra (by decide)
    · exact absurd hfalse (List.not_mem_nil ins)
  · rw [if_neg hn] at hins
    exact absurd hins (List.not_mem_nil ins)

/-- Witness for C10: a user with exactly 3 quiz completions, with rising
scores, still gets no improving insight. -/
theorem claim_C10_witness :
    (([{ etype := "quiz_completed", user_id := "u", time := 0, hour := 10,
         score := 40, duration_minutes := 0 },
       { etype := "quiz_completed", user_id := "u", time := 1, hour := 11,
         score := 60, duration_minutes := 0 },
       { etype := "quiz_completed", user_id := "u", time := 2, hour := 12,
         score := 80, duration_minutes := 0 }] : List AnalyticsEvent).filter
      (fun e => e.user_id = "u" ∧ e.etype = "quiz_completed")).length = 3 ∧
    improvingInsight ∉ generateInsights
      [{ etype := "quiz_completed", user_id := "u", time := 0, hour := 10,
         score := 40, duration_minutes := 0 },
       { etype := "quiz_completed", user_id := "u", time := 1, hour := 11,
         score := 60, duration_minutes := 0 },
       { etype := "quiz_completed", user_id := "u", time := 2, hour := 12,
         score := 80, duration_minutes := 0 }] "u" := by
  refine ⟨by decide, fun hmem => ?_⟩
  exact claim_C10
    [{ etype := "quiz_completed", user_id := "u", time := 0, hour := 10,
       score := 40, duration_minutes := 0 },
     { etype := "quiz_completed", user_id := "u", time := 1, hour := 11,
       score := 60, duration_minutes := 0 },
     { etype := "quiz_completed", user_id := "u", time := 2, hour := 12,
       score := 80, duration_minutes := 0 }] "u" (by decide) improvingInsight hmem rfl

/-! ### Claims about the omniscient hub connector -/

/-- C9 counterexample: on transport failure with an empty learning log,
`analyze_learning_pattern` returns the bare `insufficient_data` dict,
which carries no `source: "fallback"` marker at all. -/
theorem claim_C9_counterexample :
    (analyzeLearningPattern none []).source = none ∧
      (none : Option String) ≠ some "fallback" := by
  constructor
  · rfl
  · intro hcontra
    exact Option.noConfusion hcontra

/-- C9 as amended: on any transport failure the hub operations return a
locally computed fallback value instead of raising.  For
`analyze_learning_pattern` the fallback carries `source = "fallback"`
and confidence 0.6 whenever the learning data is nonempty; with empty
learning data it is the bare `insufficient_data` status dict with no
source marker.  For `get_learning_recommendations` every item of the
fallback list carries `source = "fallback"` (the list is empty when the
profile has no interests). -/
theorem claim_C9 (student_profile : HubProfile)
    (learning_data : List LearningSession) :
    (learning_data ≠ [] →
      (analyzeLearningPattern none learning_data).source = some "fallback" ∧
      (analyzeLearningPattern none learning_data).confidence_level = some 0.6) ∧
    (learning_data = [] →
      analyzeLearningPattern none learning_data =
        { status := some "insufficient_data", total_sessions := none,
          average_session_length := none, most_active_hour := none,
          learning_style := none, confidence_level := none, source := none }) ∧
    (∀ r ∈ getLearningRecommendations none student_profile,
      r.source = "fallback") := by
  refine ⟨?_, ?_, ?_⟩
  · intro h
    rw [analyzeLearningPattern, generateFallbackAnalysis, if_neg h]
    exact ⟨rfl, rfl⟩
  · intro h
    rw [analyzeLearningPattern, generateFallbackAnalysis, if_pos h]
  · intro r hr
    rw [getLearningRecommendations, generateFallbackRecommendations] at hr
    rcases List.mem_map.mp hr with ⟨interest, _, rfl⟩
    rfl

/-- Witness for C9: one learning session makes the fallback analysis
carry the fallback marker, and a one-interest profile yields one
fallback recommendation marked "fallback". -/
theorem claim_C9_witness :
    (analyzeLearningPattern none
        [{ duration := 30, timestamp_hour := some 20, content_type := some "video" }]).source
      = some "fallback" ∧
    (analyzeLearningPattern none
        [{ duration := 30, timestamp_hour := some 20, content_type := some "video" }]).confidence_level
      = some 0.6 ∧
    ∃ r, getLearningRecommendations none
        { interests := ["robotics"], skill_level := "beginner" } = [r] ∧
      r.source = "fallback" := by
  have h := claim_C9 { interests := ["robotics"], skill_level := "beginner" }
    [{ duration := 30, timestamp_hour := some 20, content_type := some "video" }]
  refine ⟨(h.1 (by simp)).1, (h.1 (by simp)).2, ?_⟩
  refine ⟨_, rfl, h.2.2 _ ?_⟩
  exact List.mem_cons_self _ _

end CitySpark
